import Mathlib

/-!
# Verification of `smiles_transformer/dataset.py`

A shallow embedding of the example-builder classes of
`src/smiles_transformer/dataset.py` (`STDataset`, `Seq2seqDataset`,
`ESOLDataset`, `TSMDataset`, `MSMDataset`) together with proofs about
the masking, pairing, segment-tagging and padding behaviour.

Modelling conventions:
* Python floats drawn from `random.random()` are modelled as rationals
  (`ℚ`); the literals `0.15`, `0.8`, `0.9`, `0.5`, `0.01` become the
  exact rationals `mkRat 3 20`, `mkRat 4 5`, `mkRat 9 10`, `mkRat 1 2`,
  `mkRat 1 100`.
* each loop iteration of `mask` consumes one record of randomness: the
  field `p` models the `random.random()` draw, and the field `r` models
  the `random.randrange(len(self.vocab))` draw consumed in the
  random-token branch (so `r` ranges over `[0, vocab size)`).
* the external `transform` collaborator (SMILES randomizer + tokenizer)
  is opaque: builders take the resulting token lists (or, where the
  corpus string is used untransformed, the string) as inputs.
* Python list indexing `xs[i]` is modelled totally with `List.getD`;
  every claim below only exercises in-range indices.
-/

/-- Module-level constant `PAD = 0` (dataset.py line 9). -/
def PAD : Nat := 0

/-- The external vocabulary collaborator: `stoi` is the token → id
mapping (an association list), the `*_index` fields are the reserved
ids, and `size` models `len(vocab)`. -/
structure Vocab where
  stoi : List (String × Nat)
  pad_index : Nat
  unk_index : Nat
  sos_index : Nat
  eos_index : Nat
  mask_index : Nat
  size : Nat

/-- `self.vocab.stoi.get(token, self.vocab.unk_index)`: id of a token,
falling back to the `unk` id when the token is absent. -/
def Vocab.lookup (v : Vocab) (t : String) : Nat :=
  match v.stoi.lookup t with
  | some i => i
  | none => v.unk_index

/-- The randomness consumed by one iteration of the `mask` loop:
`p` is the `random.random()` draw (in `[0,1)`), `r` is the
`random.randrange(len(self.vocab))` draw (in `[0, vocab size)`),
consumed only when the random-token branch fires. -/
structure Draw where
  p : ℚ
  r : Nat

/-- One iteration of the loop in `STDataset.mask` / `MSMDataset.mask`
(dataset.py lines 90-113 and 290-313): given this token's randomness,
returns `(masked_ids[i], ans_ids[i])`.  The thresholds `0.8` and `0.9`
are `mkRat 4 5` and `mkRat 9 10`. -/
def maskToken (v : Vocab) (is_train : Bool) (rate : ℚ) (d : Draw) (token : String) :
    Nat × Nat :=
  let prob : ℚ := if is_train then d.p else 1
  if rate < prob then
    (v.lookup token, PAD)
  else
    let prob2 := prob / rate
    let m : Nat :=
      if prob2 < mkRat 4 5 then v.mask_index
      else if prob2 < mkRat 9 10 then d.r
      else v.lookup token
    (m, v.lookup token)

/-- `STDataset.mask` / `MSMDataset.mask` (dataset.py lines 87-114,
287-314): maps `maskToken` over the token list, consuming one `Draw`
per token from the stream `draws`. -/
def mask (v : Vocab) (is_train : Bool) (rate : ℚ) :
    (Nat → Draw) → List String → List Nat × List Nat
  | _, [] => ([], [])
  | draws, token :: rest =>
    let hd := maskToken v is_train rate (draws 0) token
    let tl := mask v is_train rate (fun i => draws (i + 1)) rest
    (hd.1 :: tl.1, hd.2 :: tl.2)

/-- `ESOLDataset.encode` / the list comprehensions of
`Seq2seqDataset.__getitem__`: id of every token of a token list. -/
def encode (v : Vocab) (sm : List String) : List Nat :=
  sm.map v.lookup

/-- `TSMDataset.encode` (dataset.py lines 237-243): the same lookup
loop, but its argument is the raw corpus string, so Python iterates
over its characters (each character is a one-character token). -/
def encodeString (v : Vocab) (sm : String) : List Nat :=
  sm.data.map (fun c => v.lookup (String.singleton c))

/-- `STDataset.get_random_pair` / `TSMDataset.get_random_pair`
(dataset.py lines 76-85 and 226-235): `rand` models the
`random.random()` draw; returns the partner string and the
`is_same_label` (1 = same, 0 = different). -/
def get_random_pair (firsts seconds : List String) (index : Nat) (rand : ℚ) :
    String × Nat :=
  if rand < mkRat 1 2 then (firsts.getD index "", 1)
  else (seconds.getD index "", 0)

/-- The sample dictionary returned by `STDataset.__getitem__`. -/
structure STSample where
  bert_input : List Nat
  bert_label : List Nat
  segment_embd : List Nat
  is_same : Nat

/-- Body of `STDataset.__getitem__` (dataset.py lines 48-74) after the
two `transform` calls: `sm1`, `sm2` are the two token lists and
`is_same` the label from `get_random_pair`.  The corruption rate of
this variant is the literal `0.15 = mkRat 3 20`. -/
def stBuild (v : Vocab) (seq_len : Nat) (is_train : Bool) (sm1 sm2 : List String)
    (is_same : Nat) (draws1 draws2 : Nat → Draw) : STSample :=
  let mk1 := mask v is_train (mkRat 3 20) draws1 sm1
  let mk2 := mask v is_train (mkRat 3 20) draws2 sm2
  let masked_ids1 := [v.sos_index] ++ mk1.1 ++ [v.eos_index]
  let masked_ids2 := mk2.1 ++ [v.eos_index]
  let ans_ids1 := [v.pad_index] ++ mk1.2 ++ [v.pad_index]
  let ans_ids2 := mk2.2 ++ [v.pad_index]
  let segment_embd := (List.replicate masked_ids1.length 1 ++
    List.replicate masked_ids2.length 2).take seq_len
  let bert_input := (masked_ids1 ++ masked_ids2).take seq_len
  let bert_label := (ans_ids1 ++ ans_ids2).take seq_len
  let padding := List.replicate (seq_len - bert_input.length) v.pad_index
  { bert_input := bert_input ++ padding
    bert_label := bert_label ++ padding
    segment_embd := segment_embd ++ padding
    is_same := is_same }

/-- `STDataset.__getitem__` (dataset.py lines 48-74): resolves the two
strings from the corpus and the pairing draw, runs the opaque
`transform` on each (the two stochastic invocations are modelled as two
function arguments), then assembles the sample. -/
def stGetItem (v : Vocab) (seq_len : Nat) (is_train : Bool)
    (transform1 transform2 : String → List String) (firsts seconds : List String)
    (item : Nat) (rand : ℚ) (draws1 draws2 : Nat → Draw) : STSample :=
  let pr := get_random_pair firsts seconds item rand
  stBuild v seq_len is_train (transform1 (firsts.getD item ""))
    (transform2 pr.1) pr.2 draws1 draws2

/-- The object state built by `STDataset.__init__` (dataset.py lines
31-43).  The field `smiles` models the Python attribute `self.smiles`:
`__init__` (and every other method of the class) never assigns it, so
the constructor leaves it `none`. -/
structure STDatasetState where
  vocab : Vocab
  seq_len : Nat
  is_train : Bool
  data_size : Nat
  firsts : List String
  seconds : List String
  smiles : Option (List String)

/-- `STDataset.__init__` (dataset.py lines 31-43): stores the corpus
columns, truncating both to the first 10000 rows in evaluation mode;
the attribute `smiles` is never assigned. -/
def stInit (v : Vocab) (seq_len : Nat) (is_train : Bool)
    (firsts seconds : List String) : STDatasetState :=
  let data_size := firsts.length
  { vocab := v
    seq_len := seq_len
    is_train := is_train
    data_size := data_size
    firsts := if is_train = false ∧ 10000 < data_size then firsts.take 10000 else firsts
    seconds := if is_train = false ∧ 10000 < data_size then seconds.take 10000 else seconds
    smiles := none }

/-- `STDataset.__len__` (dataset.py lines 45-46): `len(self.smiles)`.
Reading the absent attribute `smiles` raises `AttributeError`, modelled
as the error case of `Except`. -/
def stLen (dset : STDatasetState) : Except String Nat :=
  match dset.smiles with
  | some s => Except.ok s.length
  | none => Except.error "AttributeError"

/-- One half of `Seq2seqDataset.__getitem__` (dataset.py lines
134-146): bracket the encoded tokens with `sos`/`eos`, then extend
with padding computed from `seq_len - len(input)` (note: no
truncation). -/
def seq2seqEncodeOne (v : Vocab) (seq_len : Nat) (sm : List String) : List Nat :=
  let input1 := [v.sos_index] ++ encode v sm ++ [v.eos_index]
  input1 ++ List.replicate (seq_len - input1.length) v.pad_index

/-- `Seq2seqDataset.__getitem__` (dataset.py lines 134-146): two
independently transformed token lists of the same molecule, each
encoded as `seq2seqEncodeOne`. -/
def seq2seqGetItem (v : Vocab) (seq_len : Nat) (sm1 sm2 : List String) :
    List Nat × List Nat :=
  (seq2seqEncodeOne v seq_len sm1, seq2seqEncodeOne v seq_len sm2)

/-- The sample dictionary returned by `ESOLDataset.__getitem__`. -/
structure ESOLSample where
  bert_input : List Nat
  segment_embd : List Nat
  target : ℚ

/-- `ESOLDataset.__getitem__` (dataset.py lines 162-178) after the
`transform` call: note that `bert_input` is truncated to `seq_len`
before padding but `segment_embd` is built as `[1]*len(masked_ids)`
and is never truncated. -/
def esolBuild (v : Vocab) (seq_len : Nat) (sm : List String) (y : ℚ) : ESOLSample :=
  let masked_ids := [v.sos_index] ++ encode v sm ++ [v.eos_index]
  let segment_embd := List.replicate masked_ids.length 1
  let bert_input := masked_ids.take seq_len
  let padding := List.replicate (seq_len - bert_input.length) v.pad_index
  { bert_input := bert_input ++ padding
    segment_embd := segment_embd ++ padding
    target := y }

/-- The sample dictionary returned by `TSMDataset.__getitem__`. -/
structure TSMSample where
  bert_input : List Nat
  segment_embd : List Nat
  is_same : Nat

/-- Body of `TSMDataset.__getitem__` (dataset.py lines 204-224) after
the pairing draw: the two corpus strings are encoded directly
(no transform, no masking), bracketed, segment-tagged, truncated and
padded. -/
def tsmBuild (v : Vocab) (seq_len : Nat) (sm1raw sm2raw : String) (is_same : Nat) :
    TSMSample :=
  let sm1 := [v.sos_index] ++ encodeString v sm1raw ++ [v.eos_index]
  let sm2 := encodeString v sm2raw ++ [v.eos_index]
  let segment_embd := (List.replicate sm1.length 1 ++
    List.replicate sm2.length 2).take seq_len
  let bert_input := (sm1 ++ sm2).take seq_len
  let padding := List.replicate (seq_len - bert_input.length) v.pad_index
  { bert_input := bert_input ++ padding
    segment_embd := segment_embd ++ padding
    is_same := is_same }

/-- `TSMDataset.__getitem__` (dataset.py lines 204-224): resolves the
pair from the corpus and the pairing draw `rand`, then assembles. -/
def tsmGetItem (v : Vocab) (seq_len : Nat) (firsts seconds : List String)
    (item : Nat) (rand : ℚ) : TSMSample :=
  let pr := get_random_pair firsts seconds item rand
  tsmBuild v seq_len (firsts.getD item "") pr.1 pr.2

/-- The sample dictionary returned by `MSMDataset.__getitem__`. -/
structure MSMSample where
  bert_input : List Nat
  bert_label : List Nat
  segment_embd : List Nat

/-- Body of `MSMDataset.__getitem__` (dataset.py lines 260-285) after
the two `transform` calls on the same corpus string: identical
assembly to `stBuild` but with a configurable corruption `rate`
(default `0.01`) and no `is_same` field. -/
def msmBuild (v : Vocab) (seq_len : Nat) (is_train : Bool) (rate : ℚ)
    (sm1 sm2 : List String) (draws1 draws2 : Nat → Draw) : MSMSample :=
  let mk1 := mask v is_train rate draws1 sm1
  let mk2 := mask v is_train rate draws2 sm2
  let masked_ids1 := [v.sos_index] ++ mk1.1 ++ [v.eos_index]
  let masked_ids2 := mk2.1 ++ [v.eos_index]
  let ans_ids1 := [v.pad_index] ++ mk1.2 ++ [v.pad_index]
  let ans_ids2 := mk2.2 ++ [v.pad_index]
  let segment_embd := (List.replicate masked_ids1.length 1 ++
    List.replicate masked_ids2.length 2).take seq_len
  let bert_input := (masked_ids1 ++ masked_ids2).take seq_len
  let bert_label := (ans_ids1 ++ ans_ids2).take seq_len
  let padding := List.replicate (seq_len - bert_input.length) v.pad_index
  { bert_input := bert_input ++ padding
    bert_label := bert_label ++ padding
    segment_embd := segment_embd ++ padding }

/-- Modelled from the spec: "the input sequence (`bert_input`) equals
the unmasked encoding of the tokens, bracketed with the start/end
markers and padded" — the pair-variant layout
`[sos] ++ ids(sm1) ++ [eos] ++ ids(sm2) ++ [eos]`, truncated to
`seq_len` and right-padded with the `pad` id. -/
def specUnmaskedPair (v : Vocab) (seq_len : Nat) (sm1 sm2 : List String) : List Nat :=
  let ids := [v.sos_index] ++ encode v sm1 ++ [v.eos_index] ++ encode v sm2 ++ [v.eos_index]
  ids.take seq_len ++ List.replicate (seq_len - ids.length) v.pad_index

/-- The concrete example vocabulary of the spec:
`{pad:0, unk:1, sos:2, eos:3, mask:4, "C":5, "O":6}`. -/
def exVocab : Vocab :=
  { stoi := [("C", 5), ("O", 6)]
    pad_index := 0
    unk_index := 1
    sos_index := 2
    eos_index := 3
    mask_index := 4
    size := 7 }

/-- A fixed dummy randomness stream for closed evaluations. -/
def noDraws : Nat → Draw := fun _ => { p := 0, r := 0 }

/-! ## Basic lemmas about `mask` -/

/-- Both outputs of `mask` have one slot per input token. -/
theorem mask_length (v : Vocab) (t : Bool) (r : ℚ) :
    ∀ (d : Nat → Draw) (sm : List String),
      (mask v t r d sm).1.length = sm.length ∧ (mask v t r d sm).2.length = sm.length
  | _, [] => ⟨rfl, rfl⟩
  | d, tok :: rest => by
    have ih := mask_length v t r (fun i => d (i + 1)) rest
    simp [mask, ih.1, ih.2]

/-- In evaluation mode the per-token draw is treated as `1.0`, so for
any corruption rate below `1` the else-branch never fires: the masked
ids are the true ids and every answer slot is `PAD`. -/
theorem mask_eval (v : Vocab) (r : ℚ) (hr : r < 1) :
    ∀ (d : Nat → Draw) (sm : List String),
      mask v false r d sm = (sm.map v.lookup, List.replicate sm.length PAD)
  | _, [] => rfl
  | d, tok :: rest => by
    have ih := mask_eval v r hr (fun i => d (i + 1)) rest
    simp [mask, maskToken, hr, ih, List.replicate_succ]

/-- C2: in the masking routine, when the uniform draw `p` does not
exceed the corruption rate `r` (so masking triggers), the rescaled
value `p / r` selects exactly one of three corruptions: below `0.8`
the input slot becomes the mask id, in `[0.8, 0.9)` it becomes the
`randrange` draw over `[0, vocab size)`, and at or above `0.9` it
stays the token's true id (`unk` on vocabulary miss). -/
theorem masked_corruption_cases (v : Vocab) (rate : ℚ) (d : Draw) (token : String)
    (hle : d.p ≤ rate) (hpos : 0 < rate) :
    (d.p / rate < mkRat 4 5 → (maskToken v true rate d token).1 = v.mask_index) ∧
    (mkRat 4 5 ≤ d.p / rate → d.p / rate < mkRat 9 10 →
      (maskToken v true rate d token).1 = d.r ∧
      (d.r < v.size → (maskToken v true rate d token).1 < v.size)) ∧
    (mkRat 9 10 ≤ d.p / rate → (maskToken v true rate d token).1 = v.lookup token) := by
  have hnot : ¬ rate < d.p := not_lt.mpr hle
  refine ⟨fun h8 => ?_, fun h8 h9 => ?_, fun h9 => ?_⟩
  · simp [maskToken, hnot, h8]
  · refine ⟨?_, fun hr => ?_⟩
    · simp [maskToken, hnot, not_lt.mpr h8, h9]
    · simpa [maskToken, hnot, not_lt.mpr h8, h9] using hr
  · have h8 : ¬ d.p / rate < mkRat 4 5 :=
      not_lt.mpr (le_trans (by decide) h9)
    simp [maskToken, hnot, h8, not_lt.mpr h9]

/-- Witness for `masked_corruption_cases` at `rate = 1`, `p = 1/2`. -/
theorem masked_corruption_cases_witness :
    (maskToken exVocab true 1 { p := mkRat 1 2, r := 3 } "C").1 = exVocab.mask_index :=
  (masked_corruption_cases exVocab 1 { p := mkRat 1 2, r := 3 } "C"
    (by decide) (by decide)).1 (by rw [div_one]; decide)

/-- C3: when the uniform draw exceeds the corruption rate, the input
slot is the token's true id (`unk` on vocabulary miss) and the answer
slot is the vocabulary's `pad` sentinel (the code writes the module
constant `PAD = 0`, which coincides with `pad_index` whenever the
vocabulary reserves id `0` for `pad`). -/
theorem unmasked_token_slots (v : Vocab) (rate : ℚ) (d : Draw) (token : String)
    (hgt : rate < d.p) (hpad : v.pad_index = 0) :
    maskToken v true rate d token = (v.lookup token, v.pad_index) := by
  simp [maskToken, hgt, hpad, PAD]

/-- Witness for `unmasked_token_slots` at `rate = 3/20`, `p = 1/2`. -/
theorem unmasked_token_slots_witness :
    maskToken exVocab true (mkRat 3 20) { p := mkRat 1 2, r := 0 } "C" =
      (exVocab.lookup "C", exVocab.pad_index) :=
  unmasked_token_slots exVocab (mkRat 3 20) { p := mkRat 1 2, r := 0 } "C"
    (by decide) rfl

/-- C4: whenever the answer slot is not the `pad` sentinel (i.e. the
token was selected for masking), the answer slot is the token's true
id (`unk` on vocabulary miss), regardless of which corruption
sub-case fired. -/
theorem masked_answer_is_true_id (v : Vocab) (is_train : Bool) (rate : ℚ) (d : Draw)
    (token : String) (hpad : v.pad_index = 0)
    (hne : (maskToken v is_train rate d token).2 ≠ v.pad_index) :
    (maskToken v is_train rate d token).2 = v.lookup token := by
  by_cases h : rate < (if is_train then d.p else 1 : ℚ)
  · exact absurd (by simp [maskToken, h, hpad, PAD]) hne
  · simp [maskToken, h]

/-- Witness for `masked_answer_is_true_id` at `p = 1/10 ≤ 3/20`. -/
theorem masked_answer_is_true_id_witness :
    (maskToken exVocab true (mkRat 3 20) { p := mkRat 1 10, r := 6 } "C").2 =
      exVocab.lookup "C" :=
  masked_answer_is_true_id exVocab true (mkRat 3 20) { p := mkRat 1 10, r := 6 } "C"
    rfl (by decide)

/-- If `L.take s` is padded by `s` minus its own (truncated) length,
the padding count equals `s` minus the untruncated length. -/
theorem take_pad_count (s p : Nat) (L : List Nat) :
    L.take s ++ List.replicate (s - (L.take s).length) p =
      L.take s ++ List.replicate (s - L.length) p := by
  have h : s - (L.take s).length = s - L.length := by
    simp [List.length_take]; omega
  rw [h]

/-- C5: in evaluation mode (training flag false) masking never
triggers, for the standard-rate variant and for any masked variant
whose rate is below `1`: the returned `bert_label` is all `pad` and
`bert_input` is the unmasked encoding of the tokens, bracketed with
the start/end markers and padded (`specUnmaskedPair`). -/
theorem eval_mode_unmasked (v : Vocab) (s : Nat) (sm1 sm2 : List String) (lbl : Nat)
    (d1 d2 : Nat → Draw) (rate : ℚ) (hrate : rate < 1) (hpad : v.pad_index = 0) :
    ((stBuild v s false sm1 sm2 lbl d1 d2).bert_label = List.replicate s 0 ∧
     (stBuild v s false sm1 sm2 lbl d1 d2).bert_input = specUnmaskedPair v s sm1 sm2) ∧
    ((msmBuild v s false rate sm1 sm2 d1 d2).bert_label = List.replicate s 0 ∧
     (msmBuild v s false rate sm1 sm2 d1 d2).bert_input = specUnmaskedPair v s sm1 sm2) := by
  have e1 := mask_eval v (mkRat 3 20) (by decide) d1 sm1
  have e2 := mask_eval v (mkRat 3 20) (by decide) d2 sm2
  have f1 := mask_eval v rate hrate d1 sm1
  have f2 := mask_eval v rate hrate d2 sm2
  refine ⟨⟨?_, ?_⟩, ⟨?_, ?_⟩⟩
  · simp only [stBuild, e1, e2]
    rw [List.eq_replicate_iff]
    constructor
    · simp [List.length_take, List.length_append]
    · intro b hb
      simp only [List.mem_append] at hb
      rcases hb with hb | hb
      · have hm := List.take_subset _ _ hb
        simp [hpad, PAD, List.mem_append, List.mem_replicate] at hm
        rcases hm with h | h | h | h | h <;> simp [h]
      · simp [List.eq_of_mem_replicate hb, hpad]
  · simp only [stBuild, e1, e2, specUnmaskedPair, encode]
    rw [take_pad_count]
    simp [List.append_assoc]
  · simp only [msmBuild, f1, f2]
    rw [List.eq_replicate_iff]
    constructor
    · simp [List.length_take, List.length_append]
    · intro b hb
      simp only [List.mem_append] at hb
      rcases hb with hb | hb
      · have hm := List.take_subset _ _ hb
        simp [hpad, PAD, List.mem_append, List.mem_replicate] at hm
        rcases hm with h | h | h | h | h <;> simp [h]
      · simp [List.eq_of_mem_replicate hb, hpad]
  · simp only [msmBuild, f1, f2, specUnmaskedPair, encode]
    rw [take_pad_count]
    simp [List.append_assoc]

/-- Witness for `eval_mode_unmasked` on the example vocabulary. -/
theorem eval_mode_unmasked_witness :
    (stBuild exVocab 8 false ["C"] ["O"] 0 noDraws noDraws).bert_label =
        List.replicate 8 0 ∧
    (msmBuild exVocab 8 false (mkRat 1 100) ["C"] ["O"] noDraws noDraws).bert_input =
        specUnmaskedPair exVocab 8 ["C"] ["O"] :=
  ⟨(eval_mode_unmasked exVocab 8 ["C"] ["O"] 0 noDraws noDraws (mkRat 1 100)
      (by decide) rfl).1.1,
   (eval_mode_unmasked exVocab 8 ["C"] ["O"] 0 noDraws noDraws (mkRat 1 100)
      (by decide) rfl).2.2⟩

/-! ## Segment tags -/

/-- `getD` on a replicated list. -/
theorem replicate_getD {α : Type} (x d : α) :
    ∀ (n i : Nat), (List.replicate n x).getD i d = if i < n then x else d
  | 0, _ => by simp
  | n + 1, 0 => by simp [List.replicate_succ]
  | n + 1, i + 1 => by
    simp only [List.replicate_succ, List.getD_cons_succ]
    rw [replicate_getD x d n i]
    simp [Nat.succ_lt_succ_iff]

/-- Position `i < s` of the truncated-and-padded segment pattern
`[1]*n1 ++ [2]*n2`, padded with `p`. -/
theorem pairSeg_getD (s n1 n2 p i : Nat) (hi : i < s) :
    ((List.replicate n1 1 ++ List.replicate n2 2).take s ++
      List.replicate (s - min s (n1 + n2)) p).getD i 0 =
      if i < n1 then 1 else if i < n1 + n2 then 2 else p := by
  rw [List.take_append_eq_append_take, List.take_replicate, List.take_replicate,
    List.length_replicate]
  by_cases h1 : i < n1
  · have hlen : i < (List.replicate (min s n1) 1 ++ List.replicate (min (s - n1) n2) 2).length := by
      simp; omega
    rw [List.getD_append _ _ _ _ hlen]
    have h2 : i < (List.replicate (min s n1) 1).length := by simp; omega
    rw [List.getD_append _ _ _ _ h2, replicate_getD, if_pos (by omega), if_pos h1]
  · by_cases h2 : i < n1 + n2
    · have hlen : i < (List.replicate (min s n1) 1 ++ List.replicate (min (s - n1) n2) 2).length := by
        simp; omega
      rw [List.getD_append _ _ _ _ hlen]
      have h3 : (List.replicate (min s n1) 1).length ≤ i := by simp; omega
      rw [List.getD_append_right _ _ _ _ h3, replicate_getD]
      simp only [List.length_replicate]
      rw [if_pos (by omega), if_neg h1, if_pos h2]
    · have h3 : (List.replicate (min s n1) 1 ++ List.replicate (min (s - n1) n2) 2).length ≤ i := by
        simp; omega
      rw [List.getD_append_right _ _ _ _ h3, replicate_getD]
      simp only [List.length_append, List.length_replicate]
      rw [if_pos (by omega), if_neg h1, if_neg h2]

/-- The segment array of `STDataset.__getitem__` is the canonical
pattern: `n1 = len(sm1) + 2` ones, `n2 = len(sm2) + 1` twos, truncated
to `seq_len` and padded with `pad_index`. -/
theorem stBuild_segment (v : Vocab) (s : Nat) (t : Bool) (sm1 sm2 : List String)
    (lbl : Nat) (d1 d2 : Nat → Draw) :
    (stBuild v s t sm1 sm2 lbl d1 d2).segment_embd =
      (List.replicate (sm1.length + 2) 1 ++ List.replicate (sm2.length + 1) 2).take s ++
        List.replicate (s - min s (sm1.length + 2 + (sm2.length + 1))) v.pad_index := by
  have h1 := (mask_length v t (mkRat 3 20) d1 sm1).1
  have h2 := (mask_length v t (mkRat 3 20) d2 sm2).1
  simp only [stBuild, List.length_append, List.length_cons, List.length_take,
    List.length_nil, h1, h2]
  have a1 : 0 + 1 + sm1.length + (0 + 1) = sm1.length + 2 := by omega
  have a2 : sm2.length + (0 + 1) = sm2.length + 1 := by omega
  rw [a1, a2]

/-- The segment array of `TSMDataset.__getitem__` is the same pattern
with `n1 = len(sm1raw) + 2`, `n2 = len(sm2raw) + 1` (string length =
number of characters). -/
theorem tsmBuild_segment (v : Vocab) (s : Nat) (s1 s2 : String) (lbl : Nat) :
    (tsmBuild v s s1 s2 lbl).segment_embd =
      (List.replicate (s1.data.length + 2) 1 ++ List.replicate (s2.data.length + 1) 2).take s ++
        List.replicate (s - min s (s1.data.length + 2 + (s2.data.length + 1))) v.pad_index := by
  simp only [tsmBuild, encodeString, List.length_append, List.length_cons, List.length_take,
    List.length_nil, List.length_map]
  have a1 : 0 + 1 + s1.data.length + (0 + 1) = s1.data.length + 2 := by omega
  have a2 : s2.data.length + (0 + 1) = s2.data.length + 1 := by omega
  rw [a1, a2]

/-- C6: in every pair-variant sample (`STDataset` shown with arbitrary
mode and draws, `TSMDataset` likewise), each surviving position of the
first sub-sequence (leading `sos`, its tokens, trailing `eos`) carries
segment tag `1`, each surviving position of the second sub-sequence
(its tokens and trailing `eos`) carries tag `2`, and every padding
position carries tag `0` (the code pads tags with `pad_index`, which
is `0` whenever the vocabulary reserves id `0` for `pad`). -/
theorem pair_segment_tags (v : Vocab) (s : Nat) (t : Bool) (sm1 sm2 : List String)
    (s1 s2 : String) (lbl lbl2 : Nat) (d1 d2 : Nat → Draw) (i : Nat)
    (hpad : v.pad_index = 0) (hi : i < s) :
    ((i < sm1.length + 2 →
        (stBuild v s t sm1 sm2 lbl d1 d2).segment_embd.getD i 0 = 1) ∧
     (sm1.length + 2 ≤ i → i < sm1.length + 2 + (sm2.length + 1) →
        (stBuild v s t sm1 sm2 lbl d1 d2).segment_embd.getD i 0 = 2) ∧
     (sm1.length + 2 + (sm2.length + 1) ≤ i →
        (stBuild v s t sm1 sm2 lbl d1 d2).segment_embd.getD i 0 = 0)) ∧
    ((i < s1.data.length + 2 →
        (tsmBuild v s s1 s2 lbl2).segment_embd.getD i 0 = 1) ∧
     (s1.data.length + 2 ≤ i → i < s1.data.length + 2 + (s2.data.length + 1) →
        (tsmBuild v s s1 s2 lbl2).segment_embd.getD i 0 = 2) ∧
     (s1.data.length + 2 + (s2.data.length + 1) ≤ i →
        (tsmBuild v s s1 s2 lbl2).segment_embd.getD i 0 = 0)) := by
  rw [stBuild_segment v s t sm1 sm2 lbl d1 d2, tsmBuild_segment v s s1 s2 lbl2,
    hpad, pairSeg_getD _ _ _ _ _ hi, pairSeg_getD _ _ _ _ _ hi]
  refine ⟨⟨fun h => ?_, fun h h' => ?_, fun h => ?_⟩,
    ⟨fun h => ?_, fun h h' => ?_, fun h => ?_⟩⟩
  · rw [if_pos h]
  · rw [if_neg (by omega), if_pos (by omega)]
  · rw [if_neg (by omega), if_neg (by omega)]
  · rw [if_pos h]
  · rw [if_neg (by omega), if_pos (by omega)]
  · rw [if_neg (by omega), if_neg (by omega)]

/-- Witness for `pair_segment_tags`: position 3 of the example pair
sample lies in the second sub-sequence and is tagged `2`. -/
theorem pair_segment_tags_witness :
    (stBuild exVocab 8 false ["C"] ["O"] 0 noDraws noDraws).segment_embd.getD 3 0 = 2 ∧
    (tsmBuild exVocab 8 "C" "O" 0).segment_embd.getD 3 0 = 2 :=
  ⟨(pair_segment_tags exVocab 8 false ["C"] ["O"] "C" "O" 0 0 noDraws noDraws 3
      rfl (by decide)).1.2.1 (by decide) (by decide),
   (pair_segment_tags exVocab 8 false ["C"] ["O"] "C" "O" 0 0 noDraws noDraws 3
      rfl (by decide)).2.2.1 (by decide) (by decide)⟩

/-- C7: with the example vocabulary and `seq_len = 8`, the pair-mode
sample with first sequence `["C"]`, second sequence `["O"]`, no
masking, and the pairing draw in the "different" branch
(`rand = 3/4 ≥ 1/2`) has `bert_input = [2,5,3,6,3,0,0,0]` and
`segment_embd = [1,1,1,2,2,0,0,0]` — both for `TSMDataset` and for
the `STDataset` assembly in evaluation mode. -/
theorem example_scenario_pair :
    (tsmGetItem exVocab 8 ["C"] ["O"] 0 (mkRat 3 4)).bert_input = [2, 5, 3, 6, 3, 0, 0, 0] ∧
    (tsmGetItem exVocab 8 ["C"] ["O"] 0 (mkRat 3 4)).segment_embd = [1, 1, 1, 2, 2, 0, 0, 0] ∧
    (tsmGetItem exVocab 8 ["C"] ["O"] 0 (mkRat 3 4)).is_same = 0 ∧
    (stBuild exVocab 8 false ["C"] ["O"] 0 noDraws noDraws).bert_input = [2, 5, 3, 6, 3, 0, 0, 0] ∧
    (stBuild exVocab 8 false ["C"] ["O"] 0 noDraws noDraws).segment_embd = [1, 1, 1, 2, 2, 0, 0, 0] := by
  decide

/-- C8: when tokenization yields an empty token sequence, every
variant still returns a sample whose input is just the marker ids
(`sos` and the `eos` markers) followed entirely by padding. -/
theorem empty_tokenization_markers (v : Vocab) (s : Nat) (t : Bool) (rate : ℚ)
    (lbl lbl2 : Nat) (d1 d2 : Nat → Draw) (y : ℚ) :
    (stBuild v s t [] [] lbl d1 d2).bert_input =
        [v.sos_index, v.eos_index, v.eos_index].take s ++ List.replicate (s - 3) v.pad_index ∧
    (msmBuild v s t rate [] [] d1 d2).bert_input =
        [v.sos_index, v.eos_index, v.eos_index].take s ++ List.replicate (s - 3) v.pad_index ∧
    (tsmBuild v s "" "" lbl2).bert_input =
        [v.sos_index, v.eos_index, v.eos_index].take s ++ List.replicate (s - 3) v.pad_index ∧
    (esolBuild v s [] y).bert_input =
        [v.sos_index, v.eos_index].take s ++ List.replicate (s - 2) v.pad_index ∧
    seq2seqEncodeOne v s [] =
        [v.sos_index, v.eos_index] ++ List.replicate (s - 2) v.pad_index := by
  refine ⟨?_, ?_, ?_, ?_, ?_⟩
  · simp only [stBuild, mask]
    rw [take_pad_count]
    simp
  · simp only [msmBuild, mask]
    rw [take_pad_count]
    simp
  · simp only [tsmBuild, encodeString]
    rw [take_pad_count]
    simp
  · simp only [esolBuild, encode]
    rw [take_pad_count]
    simp
  · simp [seq2seqEncodeOne, encode]

/-- C9: the deterministic pair-classification variant (`TSMDataset`,
no randomizer, no masking) produces identical `bert_input` and
`segment_embd` on two accesses of the same index whenever the pairing
coin-flips take the same outcome. -/
theorem tsm_deterministic (v : Vocab) (s : Nat) (firsts seconds : List String)
    (item : Nat) (r1 r2 : ℚ) (h : r1 < mkRat 1 2 ↔ r2 < mkRat 1 2) :
    (tsmGetItem v s firsts seconds item r1).bert_input =
      (tsmGetItem v s firsts seconds item r2).bert_input ∧
    (tsmGetItem v s firsts seconds item r1).segment_embd =
      (tsmGetItem v s firsts seconds item r2).segment_embd := by
  have hpr : get_random_pair firsts seconds item r1 = get_random_pair firsts seconds item r2 := by
    unfold get_random_pair
    exact if_congr h rfl rfl
  simp [tsmGetItem, hpr]

/-- Witness for `tsm_deterministic`: draws `0` and `1/4` both take the
"same-molecule" branch. -/
theorem tsm_deterministic_witness :
    (tsmGetItem exVocab 8 ["C"] ["O"] 0 0).bert_input =
      (tsmGetItem exVocab 8 ["C"] ["O"] 0 (mkRat 1 4)).bert_input ∧
    (tsmGetItem exVocab 8 ["C"] ["O"] 0 0).segment_embd =
      (tsmGetItem exVocab 8 ["C"] ["O"] 0 (mkRat 1 4)).segment_embd :=
  tsm_deterministic exVocab 8 ["C"] ["O"] 0 0 (mkRat 1 4) (by decide)

/-- C10: for every constructed `STDataset`, the length query fails
with `AttributeError`: `__len__` reads `self.smiles`, which neither
`__init__` nor any other method of the class ever assigns. -/
theorem st_len_attribute_error (v : Vocab) (s : Nat) (t : Bool)
    (firsts seconds : List String) :
    stLen (stInit v s t firsts seconds) = Except.error "AttributeError" := rfl

/-- C1: the all-fields-have-length-`seq_len` invariant fails in the
code.  With `seq_len = 3` and the tokenized molecule `["C","O"]`
(3 + 2 tokens after bracketing), `ESOLDataset` returns a
`segment_embd` of length 4 (it is built as `[1]*len(masked_ids)` and
never truncated, unlike `bert_input` two lines above) and
`Seq2seqDataset` returns inputs of length 4 (it never truncates at
all); the three remaining variants do return `seq_len`-sized arrays
on the same input. -/
theorem length_invariant_failing_input :
    ((esolBuild exVocab 3 ["C", "O"] 0).bert_input.length = 3 ∧
     (esolBuild exVocab 3 ["C", "O"] 0).segment_embd.length = 4) ∧
    (seq2seqEncodeOne exVocab 3 ["C", "O"]).length = 4 ∧
    ((stBuild exVocab 3 true ["C", "O"] ["O"] 0 noDraws noDraws).bert_input.length = 3 ∧
     (stBuild exVocab 3 true ["C", "O"] ["O"] 0 noDraws noDraws).bert_label.length = 3 ∧
     (stBuild exVocab 3 true ["C", "O"] ["O"] 0 noDraws noDraws).segment_embd.length = 3) ∧
    ((tsmBuild exVocab 3 "CO" "O" 0).bert_input.length = 3 ∧
     (tsmBuild exVocab 3 "CO" "O" 0).segment_embd.length = 3) ∧
    ((msmBuild exVocab 3 true (mkRat 1 100) ["C", "O"] ["O"] noDraws noDraws).bert_input.length = 3 ∧
     (msmBuild exVocab 3 true (mkRat 1 100) ["C", "O"] ["O"] noDraws noDraws).bert_label.length = 3 ∧
     (msmBuild exVocab 3 true (mkRat 1 100) ["C", "O"] ["O"] noDraws noDraws).segment_embd.length = 3) := by
  decide
